import Mathlib

/-!
Verification of the dashboard statistics aggregator
(`src/server/src/handlers/get_dashboard_stats.ts`).

The relational store is embedded shallowly: each table consumed by the
aggregator becomes a list of records, and each drizzle query becomes the
corresponding pure list computation (filters for `where`, flat maps for
inner joins, `dedup` for `selectDistinct`, insertion sort plus `take` for
`orderBy … limit`).  An instrumented variant threads the store and a query
counter through an `Except` monad to model the failure semantics and the
read-only frame of the handler.
-/

namespace OnlineSchool

/-- Row of `usersTable` (fields consumed by the aggregator). -/
structure User where
  id : Nat
  first_name : String
  last_name : String
  role : String
deriving DecidableEq

/-- Row of `coursesTable` (fields consumed by the aggregator). -/
structure Course where
  id : Nat
  owner_id : Nat
deriving DecidableEq

/-- Row of `lessonsTable` (fields consumed by the aggregator). -/
structure Lesson where
  id : Nat
  course_id : Nat
deriving DecidableEq

/-- Row of `courseEnrollmentsTable` (fields consumed by the aggregator). -/
structure CourseEnrollment where
  course_id : Nat
  student_id : Nat
deriving DecidableEq

/-- Row of `subscriptionsTable` (fields consumed by the aggregator). -/
structure Subscription where
  user_id : Nat
  course_id : Nat
  status : String
deriving DecidableEq

/-- Row of `assignmentsTable` (fields consumed by the aggregator). -/
structure Assignment where
  id : Nat
  lesson_id : Nat
  title : String
deriving DecidableEq

/-- Row of `assignmentSubmissionsTable` (fields consumed by the aggregator). -/
structure AssignmentSubmission where
  id : Nat
  assignment_id : Nat
  student_id : Nat
  submitted_at : Nat
deriving DecidableEq

/-- The seven entity tables read by the aggregator. -/
structure Store where
  users : List User
  courses : List Course
  lessons : List Lesson
  enrollments : List CourseEnrollment
  subscriptions : List Subscription
  assignments : List Assignment
  submissions : List AssignmentSubmission
deriving DecidableEq

/-- One entry of `recent_activities` (shape of `dashboardStatsSchema`). -/
structure RecentActivity where
  id : Nat
  type : String
  description : String
  created_at : Nat
  user_name : String
deriving DecidableEq

/-- Result record of `getDashboardStats` (shape of `dashboardStatsSchema`). -/
structure DashboardStats where
  total_students : Nat
  total_courses : Nat
  total_lessons : Nat
  active_subscriptions : Nat
  recent_activities : List RecentActivity
deriving DecidableEq

/-- The all-zero, empty-activity result. -/
def emptyStats : DashboardStats :=
  { total_students := 0
    total_courses := 0
    total_lessons := 0
    active_subscriptions := 0
    recent_activities := [] }

/-- `ORDER BY submitted_at DESC`: newest first. -/
def activityGe (a b : RecentActivity) : Prop :=
  b.created_at ≤ a.created_at

instance : DecidableRel activityGe := fun a b => Nat.decLe b.created_at a.created_at

instance : IsTotal RecentActivity activityGe :=
  ⟨fun a b => Nat.le_total b.created_at a.created_at⟩

instance : IsTrans RecentActivity activityGe :=
  ⟨fun _ _ _ h1 h2 => Nat.le_trans h2 h1⟩

/-- Sort an activity list newest-first (model of `orderBy(desc(submitted_at))`). -/
def sortByNewest (l : List RecentActivity) : List RecentActivity :=
  List.insertionSort activityGe l

/-- `concat('Assignment submission for: ', title)` and
`concat(first_name, ' ', last_name)` projection of one joined row. -/
def mkActivity (sub : AssignmentSubmission) (u : User) (a : Assignment) : RecentActivity :=
  { id := sub.id
    type := "assignment_submission"
    description := "Assignment submission for: " ++ a.title
    created_at := sub.submitted_at
    user_name := u.first_name ++ " " ++ u.last_name }

/-- Admin recent-activity join: `assignment_submissions` inner-joined with
`users` (on `student_id = users.id`) and `assignments`
(on `assignment_id = assignments.id`). -/
def adminActivityRows (st : Store) : List (AssignmentSubmission × User × Assignment) :=
  st.submissions.flatMap fun sub =>
    (st.users.filter fun u => decide (u.id = sub.student_id)).flatMap fun u =>
      (st.assignments.filter fun a => decide (a.id = sub.assignment_id)).map fun a =>
        (sub, u, a)

/-- Projected admin activity feed, before ordering and truncation. -/
def adminActivityList (st : Store) : List RecentActivity :=
  (adminActivityRows st).map fun r => mkActivity r.1 r.2.1 r.2.2

/-- `getAdministratorStats`: platform-wide counts and the 10 newest
assignment submissions. -/
def getAdministratorStats (st : Store) : DashboardStats :=
  { total_students := (st.users.filter fun u => decide (u.role = "student")).length
    total_courses := st.courses.length
    total_lessons := st.lessons.length
    active_subscriptions :=
      (st.subscriptions.filter fun s => decide (s.status = "active")).length
    recent_activities := (sortByNewest (adminActivityList st)).take 10 }

/-- `select id from courses where owner_id = userId`, projected to ids. -/
def ownedCourseIds (st : Store) (userId : Nat) : List Nat :=
  (st.courses.filter fun c => decide (c.owner_id = userId)).map fun c => c.id

/-- Moderator distinct-student query: `course_enrollments` inner-joined with
`users` on `student_id = users.id`, restricted to the owned courses and to
rows whose user role is `student`, projected to `student_id` and
de-duplicated (`selectDistinct`). -/
def enrolledStudentIds (st : Store) (courseIds : List Nat) : List Nat :=
  ((((st.enrollments.flatMap fun e =>
        (st.users.filter fun u => decide (u.id = e.student_id)).map fun u => (e, u))).filter
      fun p => decide (p.1.course_id ∈ courseIds ∧ p.2.role = "student")).map
    fun p => p.1.student_id).dedup

/-- Moderator recent-activity join: `assignment_submissions` inner-joined
with `users`, `assignments` and `lessons`, restricted to lessons of owned
courses. -/
def modActivityRows (st : Store) :
    List (AssignmentSubmission × User × Assignment × Lesson) :=
  st.submissions.flatMap fun sub =>
    (st.users.filter fun u => decide (u.id = sub.student_id)).flatMap fun u =>
      (st.assignments.filter fun a => decide (a.id = sub.assignment_id)).flatMap fun a =>
        (st.lessons.filter fun l => decide (l.id = a.lesson_id)).map fun l =>
          (sub, u, a, l)

/-- Projected moderator activity feed (with the `where` filter on the owned
course set), before ordering and truncation. -/
def modActivityList (st : Store) (courseIds : List Nat) : List RecentActivity :=
  (((modActivityRows st).filter fun r =>
      decide (r.2.2.2.course_id ∈ courseIds)).map fun r => mkActivity r.1 r.2.1 r.2.2.1)

/-- `getModeratorStats`: counts and activity feed scoped to the courses the
requester owns; early all-zero return when the owned set is empty. -/
def getModeratorStats (userId : Nat) (st : Store) : DashboardStats :=
  let courseIds := ownedCourseIds st userId
  if courseIds.length = 0 then emptyStats
  else
    { total_students := (enrolledStudentIds st courseIds).length
      total_courses := (st.courses.filter fun c => decide (c.owner_id = userId)).length
      total_lessons := (st.lessons.filter fun l => decide (l.course_id ∈ courseIds)).length
      active_subscriptions :=
        (st.subscriptions.filter fun s =>
          decide (s.status = "active" ∧ s.course_id ∈ courseIds)).length
      recent_activities := (sortByNewest (modActivityList st courseIds)).take 10 }

/-- `getDashboardStats`: role dispatch, with the all-zero result for any role
other than `administrator` and `moderator`. -/
def getDashboardStats (userId : Nat) (userRole : String) (st : Store) : DashboardStats :=
  if userRole = "administrator" then getAdministratorStats st
  else if userRole = "moderator" then getModeratorStats userId st
  else emptyStats

/-! ### Instrumented semantics

The handler issues a fixed sequence of read-only queries.  `DbState` threads
the store together with the number of queries issued so far; a failure
schedule `sched` decides whether the `i`-th issued query raises.  A raised
error aborts the whole call (the source's `try … catch` merely logs and
rethrows), carrying the state at the point of failure. -/

/-- Store plus the number of queries issued so far. -/
structure DbState where
  store : Store
  queries : Nat
deriving DecidableEq

/-- Issue one read-only query: fail when the schedule says so, otherwise
return the selected data and bump the query counter.  The store itself is
never modified (`SELECT` only). -/
def runQuery (sched : Nat → Option String) (f : Store → α) (s : DbState) :
    Except (String × DbState) (α × DbState) :=
  match sched s.queries with
  | some e => Except.error (e, s)
  | none => Except.ok (f s.store, { store := s.store, queries := s.queries + 1 })

/-- Instrumented `getAdministratorStats`: the same five queries, issued in
source order. -/
def getAdministratorStatsE (sched : Nat → Option String) (s0 : DbState) :
    Except (String × DbState) (DashboardStats × DbState) := do
  let (students, s1) ←
    runQuery sched (fun st => (st.users.filter fun u => decide (u.role = "student")).length) s0
  let (courses, s2) ← runQuery sched (fun st => st.courses.length) s1
  let (lessons, s3) ← runQuery sched (fun st => st.lessons.length) s2
  let (subsCount, s4) ←
    runQuery sched
      (fun st => (st.subscriptions.filter fun s => decide (s.status = "active")).length) s3
  let (acts, s5) ←
    runQuery sched (fun st => (sortByNewest (adminActivityList st)).take 10) s4
  pure
    ({ total_students := students
       total_courses := courses
       total_lessons := lessons
       active_subscriptions := subsCount
       recent_activities := acts }, s5)

/-- Instrumented `getModeratorStats`: the owned-course query first, then —
only when the owned set is non-empty — the five scoped queries, in source
order. -/
def getModeratorStatsE (sched : Nat → Option String) (userId : Nat) (s0 : DbState) :
    Except (String × DbState) (DashboardStats × DbState) := do
  let (courseIds, s1) ← runQuery sched (fun st => ownedCourseIds st userId) s0
  if courseIds.length = 0 then
    pure (emptyStats, s1)
  else do
    let (students, s2) ←
      runQuery sched (fun st => (enrolledStudentIds st courseIds).length) s1
    let (courses, s3) ←
      runQuery sched
        (fun st => (st.courses.filter fun c => decide (c.owner_id = userId)).length) s2
    let (lessons, s4) ←
      runQuery sched
        (fun st => (st.lessons.filter fun l => decide (l.course_id ∈ courseIds)).length) s3
    let (subsCount, s5) ←
      runQuery sched
        (fun st =>
          (st.subscriptions.filter fun s =>
            decide (s.status = "active" ∧ s.course_id ∈ courseIds)).length) s4
    let (acts, s6) ←
      runQuery sched (fun st => (sortByNewest (modActivityList st courseIds)).take 10) s5
    pure
      ({ total_students := students
         total_courses := courses
         total_lessons := lessons
         active_subscriptions := subsCount
         recent_activities := acts }, s6)

/-- Instrumented `getDashboardStats`, starting with zero queries issued. -/
def getDashboardStatsE (sched : Nat → Option String) (userId : Nat) (userRole : String)
    (st : Store) : Except (String × DbState) (DashboardStats × DbState) :=
  if userRole = "administrator" then getAdministratorStatsE sched ⟨st, 0⟩
  else if userRole = "moderator" then getModeratorStatsE sched userId ⟨st, 0⟩
  else Except.ok (emptyStats, ⟨st, 0⟩)

/-- Number of queries a failure-free call issues: five for an administrator,
one or six for a moderator (depending on whether the owned set is empty),
zero for any other role. -/
def numQueries (userId : Nat) (userRole : String) (st : Store) : Nat :=
  if userRole = "administrator" then 5
  else if userRole = "moderator" then
    if (ownedCourseIds st userId).length = 0 then 1 else 6
  else 0

/-- The store visible after a call, whether it succeeded or failed. -/
def finalStore : Except (String × DbState) (DashboardStats × DbState) → Store
  | Except.ok (_, s) => s.store
  | Except.error (_, s) => s.store

/-! ### Concrete fixtures used by witnesses and counterexamples -/

/-- A store with no rows at all. -/
def emptyStore : Store :=
  { users := []
    courses := []
    lessons := []
    enrollments := []
    subscriptions := []
    assignments := []
    submissions := [] }

/-- A store whose only course is owned by user 2 (so user 1 owns nothing). -/
def storeOtherOwner : Store :=
  { users := []
    courses := [⟨10, 2⟩]
    lessons := []
    enrollments := []
    subscriptions := []
    assignments := []
    submissions := [] }

/-! ### Claim theorems -/

/-- **C3.** For every administrator and every store,
`getDashboardStats(userId, 'administrator')` returns `total_students` =
count of users with role `student`, `total_courses` = count of all courses,
`total_lessons` = count of all lessons, and `active_subscriptions` = count
of subscriptions with status `active`. -/
theorem administrator_counts (userId : Nat) (st : Store) :
    (getDashboardStats userId ("administrator") st).total_students
        = (st.users.filter fun u => decide (u.role = "student")).length ∧
    (getDashboardStats userId ("administrator") st).total_courses = st.courses.length ∧
    (getDashboardStats userId ("administrator") st).total_lessons = st.lessons.length ∧
    (getDashboardStats userId ("administrator") st).active_subscriptions
        = (st.subscriptions.filter fun s => decide (s.status = "active")).length :=
  ⟨rfl, rfl, rfl, rfl⟩

/-- **C5.** For every student caller and every store contents, the result is
the all-zero, empty-activity record. -/
theorem student_result_empty (userId : Nat) (st : Store) :
    getDashboardStats userId ("student") st = emptyStats :=
  rfl

/-- **C9.** For every role string other than `administrator` and
`moderator`, the call returns the all-zero, empty-activity result without
issuing a single query (the instrumented run succeeds with query counter 0
under any failure schedule). -/
theorem unknown_role_empty (userId : Nat) (userRole : String) (st : Store)
    (sched : Nat → Option String)
    (h1 : userRole ≠ "administrator") (h2 : userRole ≠ "moderator") :
    getDashboardStats userId userRole st = emptyStats ∧
    getDashboardStatsE sched userId userRole st = Except.ok (emptyStats, ⟨st, 0⟩) := by
  constructor
  · simp [getDashboardStats, h1, h2]
  · simp [getDashboardStatsE, h1, h2]

theorem unknown_role_empty_witness :
    getDashboardStats 7 "guest" emptyStore = emptyStats ∧
    getDashboardStatsE (fun _ => some ("db down")) 7 "guest" emptyStore
      = Except.ok (emptyStats, ⟨emptyStore, 0⟩) :=
  unknown_role_empty 7 "guest" emptyStore (fun _ => some ("db down"))
    (by decide) (by decide)

/-- **C4.** A moderator owning zero courses gets the all-zero, empty result
immediately: the plain semantics returns `emptyStats`, and the instrumented
run issues exactly one query (the owned-course lookup) and no further
ones. -/
theorem moderator_no_owned_courses (userId : Nat) (st : Store)
    (h : ownedCourseIds st userId = []) :
    getDashboardStats userId ("moderator") st = emptyStats ∧
    ∀ sched : Nat → Option String, sched 0 = none →
      getDashboardStatsE sched userId ("moderator") st = Except.ok (emptyStats, ⟨st, 1⟩) := by
  constructor
  · simp [getDashboardStats, getModeratorStats, h]
  · intro sched h0
    simp [getDashboardStatsE, getModeratorStatsE, runQuery, h0, h, Bind.bind, Except.bind,
      pure, Except.pure]

theorem moderator_no_owned_courses_witness :
    getDashboardStats 1 "moderator" storeOtherOwner = emptyStats ∧
    getDashboardStatsE (fun _ => none) 1 "moderator" storeOtherOwner
      = Except.ok (emptyStats, ⟨storeOtherOwner, 1⟩) :=
  ⟨(moderator_no_owned_courses 1 storeOtherOwner (by decide)).1,
   (moderator_no_owned_courses 1 storeOtherOwner (by decide)).2 (fun _ => none) rfl⟩

/-! ### Run analysis of the instrumented semantics

Every call either succeeds — issuing exactly `numQueries` queries, all of
which the schedule lets through, and returning the pure statistics — or
aborts at the first failing query with the store untouched. -/

lemma adminE_spec (sched : Nat → Option String) (st : Store) :
    (getAdministratorStatsE sched ⟨st, 0⟩
        = Except.ok (getAdministratorStats st, ⟨st, 5⟩) ∧ ∀ i, i < 5 → sched i = none)
    ∨ ∃ e n, getAdministratorStatsE sched ⟨st, 0⟩ = Except.error (e, ⟨st, n⟩)
        ∧ n < 5 ∧ sched n = some e := by
  cases h0 : sched 0 with
  | some e =>
    exact Or.inr ⟨e, 0,
      by simp [getAdministratorStatsE, runQuery, h0, Bind.bind, Except.bind], by omega, h0⟩
  | none =>
    cases h1 : sched 1 with
    | some e =>
      exact Or.inr ⟨e, 1,
        by simp [getAdministratorStatsE, runQuery, h0, h1, Bind.bind, Except.bind], by omega, h1⟩
    | none =>
      cases h2 : sched 2 with
      | some e =>
        exact Or.inr ⟨e, 2,
          by simp [getAdministratorStatsE, runQuery, h0, h1, h2, Bind.bind, Except.bind],
          by omega, h2⟩
      | none =>
        cases h3 : sched 3 with
        | some e =>
          exact Or.inr ⟨e, 3,
            by simp [getAdministratorStatsE, runQuery, h0, h1, h2, h3, Bind.bind, Except.bind],
            by omega, h3⟩
        | none =>
          cases h4 : sched 4 with
          | some e =>
            exact Or.inr ⟨e, 4,
              by simp [getAdministratorStatsE, runQuery, h0, h1, h2, h3, h4,
                Bind.bind, Except.bind],
              by omega, h4⟩
          | none =>
            refine Or.inl ⟨?_, ?_⟩
            · simp [getAdministratorStatsE, getAdministratorStats, runQuery,
                h0, h1, h2, h3, h4, Bind.bind, Except.bind, pure, Except.pure]
            · intro i hi
              interval_cases i <;> assumption

lemma modE_spec (sched : Nat → Option String) (userId : Nat) (st : Store) :
    (getModeratorStatsE sched userId ⟨st, 0⟩
        = Except.ok (getModeratorStats userId st,
            ⟨st, if (ownedCourseIds st userId).length = 0 then 1 else 6⟩)
      ∧ ∀ i, i < (if (ownedCourseIds st userId).length = 0 then 1 else 6) → sched i = none)
    ∨ ∃ e n, getModeratorStatsE sched userId ⟨st, 0⟩ = Except.error (e, ⟨st, n⟩)
        ∧ n < (if (ownedCourseIds st userId).length = 0 then 1 else 6) ∧ sched n = some e := by
  cases h0 : sched 0 with
  | some e =>
    refine Or.inr ⟨e, 0, ?_, ?_, h0⟩
    · simp [getModeratorStatsE, runQuery, h0, Bind.bind, Except.bind]
    · split <;> omega
  | none =>
    by_cases hK : (ownedCourseIds st userId).length = 0
    · refine Or.inl ⟨?_, ?_⟩
      · simp [getModeratorStatsE, getModeratorStats, runQuery, h0, hK,
          Bind.bind, Except.bind, pure, Except.pure]
      · simp only [if_pos hK]
        intro i hi
        interval_cases i
        exact h0
    · cases h1 : sched 1 with
      | some e =>
        refine Or.inr ⟨e, 1, ?_, by rw [if_neg hK]; omega, h1⟩
        simp [getModeratorStatsE, runQuery, h0, h1, hK, Bind.bind, Except.bind]
      | none =>
        cases h2 : sched 2 with
        | some e =>
          refine Or.inr ⟨e, 2, ?_, by rw [if_neg hK]; omega, h2⟩
          simp [getModeratorStatsE, runQuery, h0, h1, h2, hK, Bind.bind, Except.bind]
        | none =>
          cases h3 : sched 3 with
          | some e =>
            refine Or.inr ⟨e, 3, ?_, by rw [if_neg hK]; omega, h3⟩
            simp [getModeratorStatsE, runQuery, h0, h1, h2, h3, hK, Bind.bind, Except.bind]
          | none =>
            cases h4 : sched 4 with
            | some e =>
              refine Or.inr ⟨e, 4, ?_, by rw [if_neg hK]; omega, h4⟩
              simp [getModeratorStatsE, runQuery, h0, h1, h2, h3, h4, hK,
                Bind.bind, Except.bind]
            | none =>
              cases h5 : sched 5 with
              | some e =>
                refine Or.inr ⟨e, 5, ?_, by rw [if_neg hK]; omega, h5⟩
                simp [getModeratorStatsE, runQuery, h0, h1, h2, h3, h4, h5, hK,
                  Bind.bind, Except.bind]
              | none =>
                refine Or.inl ⟨?_, ?_⟩
                · simp [getModeratorStatsE, getModeratorStats, runQuery,
                    h0, h1, h2, h3, h4, h5, hK, Bind.bind, Except.bind, pure, Except.pure]
                · simp only [if_neg hK]
                  intro i hi
                  interval_cases i <;> assumption

lemma getDashboardStatsE_spec (sched : Nat → Option String) (userId : Nat)
    (userRole : String) (st : Store) :
    (getDashboardStatsE sched userId userRole st
        = Except.ok (getDashboardStats userId userRole st,
            ⟨st, numQueries userId userRole st⟩)
      ∧ ∀ i, i < numQueries userId userRole st → sched i = none)
    ∨ ∃ e n, getDashboardStatsE sched userId userRole st = Except.error (e, ⟨st, n⟩)
        ∧ n < numQueries userId userRole st ∧ sched n = some e := by
  by_cases hr : userRole = "administrator"
  · subst hr
    simpa [getDashboardStatsE, getDashboardStats, numQueries] using adminE_spec sched st
  · by_cases hm : userRole = "moderator"
    · subst hm
      simpa [getDashboardStatsE, getDashboardStats, numQueries] using modE_spec sched userId st
    · refine Or.inl ⟨?_, ?_⟩
      · simp [getDashboardStatsE, getDashboardStats, numQueries, hr, hm]
      · simp only [numQueries, if_neg hr, if_neg hm]
        intro i hi
        omega

/-- **C7.** A call returns a `DashboardStats` record exactly when none of
the queries it issues fails; on success it returns the pure statistics (no
partial or degraded result), and a failing query makes the whole call
propagate the error. -/
theorem stats_ok_iff_no_failure (sched : Nat → Option String) (userId : Nat)
    (userRole : String) (st : Store) :
    ((∀ i, i < numQueries userId userRole st → sched i = none) →
      getDashboardStatsE sched userId userRole st
        = Except.ok (getDashboardStats userId userRole st,
            ⟨st, numQueries userId userRole st⟩)) ∧
    ((∃ r, getDashboardStatsE sched userId userRole st = Except.ok r) →
      ∀ i, i < numQueries userId userRole st → sched i = none) := by
  rcases getDashboardStatsE_spec sched userId userRole st with ⟨hok, hclean⟩ | ⟨e, n, herr, hn, hs⟩
  · exact ⟨fun _ => hok, fun _ => hclean⟩
  · constructor
    · intro h
      rw [h n hn] at hs
      cases hs
    · rintro ⟨r, hr⟩
      rw [herr] at hr
      cases hr

theorem stats_ok_iff_no_failure_witness :
    getDashboardStatsE (fun _ => none) 3 "administrator" emptyStore
      = Except.ok (getDashboardStats 3 "administrator" emptyStore,
          ⟨emptyStore, numQueries 3 "administrator" emptyStore⟩) :=
  (stats_ok_iff_no_failure (fun _ => none) 3 "administrator" emptyStore).1
    (fun _ _ => rfl)

/-- **C8.** The call never writes: whether it succeeds or fails, the store
after the call is the store before it. -/
theorem stats_read_only (sched : Nat → Option String) (userId : Nat)
    (userRole : String) (st : Store) :
    finalStore (getDashboardStatsE sched userId userRole st) = st := by
  rcases getDashboardStatsE_spec sched userId userRole st with ⟨hok, _⟩ | ⟨e, n, herr, _, _⟩
  · rw [hok]; rfl
  · rw [herr]; rfl

/-! ### Distinct enrolled students (moderator branch) -/

/-- Spec-side reading of the moderator `total_students` claim: the distinct
`student_id` values having at least one enrollment row whose course is in
the owned set — with no condition on the stored user's role. -/
def specTotalStudents (st : Store) (userId : Nat) : Nat :=
  (((st.enrollments.filter fun e =>
      decide (e.course_id ∈ ownedCourseIds st userId)).map
    fun e => e.student_id).toFinset).card

/-- Amended reading: only enrollment rows whose `student_id` matches a
stored user with role `student` are counted (this is what the inner join
with `users` plus the role filter computes). -/
def specTotalStudentsAmended (st : Store) (userId : Nat) : Nat :=
  (((st.enrollments.filter fun e =>
      decide (e.course_id ∈ ownedCourseIds st userId ∧
        ∃ u ∈ st.users, u.id = e.student_id ∧ u.role = "student")).map
    fun e => e.student_id).toFinset).card

lemma totalStudents_char (userId : Nat) (st : Store) :
    (getDashboardStats userId ("moderator") st).total_students
      = specTotalStudentsAmended st userId := by
  have hrole : getDashboardStats userId ("moderator") st = getModeratorStats userId st := by
    simp [getDashboardStats]
  rw [hrole]
  simp only [getModeratorStats]
  by_cases hK : (ownedCourseIds st userId).length = 0
  · rw [if_pos hK]
    have hnil : ownedCourseIds st userId = [] := List.length_eq_zero.mp hK
    simp [emptyStats, specTotalStudentsAmended, hnil]
  · rw [if_neg hK]
    dsimp only
    unfold enrolledStudentIds specTotalStudentsAmended
    rw [← List.card_toFinset]
    congr 1
    ext x
    simp only [List.mem_toFinset, List.mem_map, List.mem_filter, List.mem_flatMap,
      decide_eq_true_iff]
    constructor
    · rintro ⟨⟨e, u⟩, ⟨⟨e2, he2, u2, ⟨hu2m, hu2id⟩, heq⟩, hcourse, hrole2⟩, hx⟩
      cases heq
      exact ⟨e, ⟨he2, hcourse, u, hu2m, hu2id, hrole2⟩, hx⟩
    · rintro ⟨e, ⟨he, hcourse, u, hum, hid, hrole2⟩, hx⟩
      exact ⟨(e, u), ⟨⟨e, he, u, ⟨hum, hid⟩, rfl⟩, hcourse, hrole2⟩, hx⟩

/-- A store where an enrollment row in the moderator's course carries a
`student_id` (5) with no matching user row at all. -/
def storeDanglingEnrollee : Store :=
  { users := [⟨1, "Mo", "Der", "moderator"⟩]
    courses := [⟨10, 1⟩]
    lessons := []
    enrollments := [⟨10, 5⟩]
    subscriptions := []
    assignments := []
    submissions := [] }

/-- **C2 counterexample.** On `storeDanglingEnrollee`, the set of distinct
student ids with an enrollment in an owned course has cardinality 1, but the
code returns `total_students = 0`: the inner join with `users` and the
role-`student` filter drop the row, so the claim as stated fails. -/
theorem moderator_total_students_claim_cex :
    (getDashboardStats 1 "moderator" storeDanglingEnrollee).total_students = 0 ∧
    specTotalStudents storeDanglingEnrollee 1 = 1 ∧
    (getDashboardStats 1 "moderator" storeDanglingEnrollee).total_students
      ≠ specTotalStudents storeDanglingEnrollee 1 := by
  decide

/-- **C2 (amended).** For every moderator and every store, `total_students`
is the cardinality of the set of distinct student ids that appear as
`student_id` of an enrollment row in an owned course **and** match a stored
user whose role is `student`; a student enrolled in two owned courses
contributes exactly once. -/
theorem moderator_total_students_distinct (userId : Nat) (st : Store) :
    (getDashboardStats userId ("moderator") st).total_students
      = specTotalStudentsAmended st userId :=
  totalStudents_char userId st

/-- **C10.** In the moderator branch, an enrollment row in an owned course
whose user is missing or has a non-`student` role does not change
`total_students`. -/
theorem non_student_enrollment_not_counted (userId : Nat) (st : Store)
    (e0 : CourseEnrollment)
    (h : ∀ u ∈ st.users, u.id = e0.student_id → u.role ≠ "student") :
    (getDashboardStats userId ("moderator")
        { st with enrollments := st.enrollments ++ [e0] }).total_students
      = (getDashboardStats userId ("moderator") st).total_students := by
  rw [totalStudents_char, totalStudents_char]
  unfold specTotalStudentsAmended ownedCourseIds
  dsimp only
  rw [List.filter_append]
  have he0 : (([e0] : List CourseEnrollment).filter fun e =>
      decide (e.course_id ∈
          ((st.courses.filter fun c => decide (c.owner_id = userId)).map fun c => c.id) ∧
        ∃ u ∈ st.users, u.id = e.student_id ∧ u.role = "student")) = [] := by
    refine List.filter_eq_nil_iff.mpr ?_
    intro e he
    rw [List.mem_singleton] at he
    subst he
    simp only [decide_eq_true_iff]
    rintro ⟨-, u, hu, hid, hrole2⟩
    exact h u hu hid hrole2
  rw [he0, List.append_nil]

/-- A store whose only candidate enrollee (user 7) is an administrator. -/
def storeAdminEnrollee : Store :=
  { users := [⟨7, "Ad", "Min", "administrator"⟩]
    courses := [⟨10, 1⟩]
    lessons := []
    enrollments := []
    subscriptions := []
    assignments := []
    submissions := [] }

/-! ### Recent activities -/

/-- The activity feed in the caller's scope, before ordering and
truncation: platform-wide for administrators, owned-course-scoped for
moderators. -/
def scopeActivities (userId : Nat) (userRole : String) (st : Store) : List RecentActivity :=
  if userRole = "administrator" then adminActivityList st
  else modActivityList st (ownedCourseIds st userId)

lemma modActivityList_nil (st : Store) : modActivityList st [] = [] := by
  simp [modActivityList]

lemma recent_eq (userId : Nat) (userRole : String) (st : Store)
    (h : userRole = "administrator" ∨ userRole = "moderator") :
    (getDashboardStats userId userRole st).recent_activities
      = (sortByNewest (scopeActivities userId userRole st)).take 10 := by
  rcases h with h | h
  · subst h
    rfl
  · subst h
    rw [getDashboardStats, if_neg (by decide), if_pos rfl]
    rw [scopeActivities, if_neg (by decide)]
    simp only [getModeratorStats]
    by_cases hK : (ownedCourseIds st userId).length = 0
    · rw [if_pos hK, List.length_eq_zero.mp hK, modActivityList_nil]
      rfl
    · rw [if_neg hK]

lemma mem_scopeActivities (userId : Nat) (userRole : String) (st : Store)
    (a : RecentActivity) (ha : a ∈ scopeActivities userId userRole st) :
    ∃ sub ∈ st.submissions, ∃ u ∈ st.users, ∃ asg ∈ st.assignments,
      u.id = sub.student_id ∧ asg.id = sub.assignment_id ∧ a = mkActivity sub u asg := by
  rw [scopeActivities] at ha
  split at ha
  · simp only [adminActivityList, adminActivityRows, List.mem_map, List.mem_flatMap,
      List.mem_filter, decide_eq_true_iff] at ha
    obtain ⟨r, ⟨sub, hsub, u, ⟨hu, hid⟩, asg, ⟨hasg, haid⟩, hr⟩, hmk⟩ := ha
    subst hr
    exact ⟨sub, hsub, u, hu, asg, hasg, hid, haid, hmk.symm⟩
  · simp only [modActivityList, modActivityRows, List.mem_map, List.mem_filter,
      List.mem_flatMap, decide_eq_true_iff] at ha
    obtain ⟨r, ⟨⟨sub, hsub, u, ⟨hu, hid⟩, asg, ⟨hasg, haid⟩, l, ⟨hl, hlid⟩, hr⟩, hscope⟩, hmk⟩ := ha
    subst hr
    exact ⟨sub, hsub, u, hu, asg, hasg, hid, haid, hmk.symm⟩

/-- **C6.** For every administrator or moderator call, `recent_activities`
is sorted newest-first, has exactly `min 10 |scope|` entries (so at most
10, and never fewer while in-scope activities remain), consists of
in-scope submission activities none of which is older than any in-scope
activity left out, and each entry is rendered from a joined submission: its
description is `"Assignment submission for: "` followed by the assignment
title, its user name is the student's first and last name separated by a
space, and its timestamp is the submission's `submitted_at`. -/
theorem recent_activities_spec (userId : Nat) (userRole : String) (st : Store)
    (h : userRole = "administrator" ∨ userRole = "moderator") :
    (getDashboardStats userId userRole st).recent_activities.length ≤ 10 ∧
    (getDashboardStats userId userRole st).recent_activities.length
      = min 10 (scopeActivities userId userRole st).length ∧
    List.Pairwise activityGe (getDashboardStats userId userRole st).recent_activities ∧
    (∀ a ∈ (getDashboardStats userId userRole st).recent_activities,
        a ∈ scopeActivities userId userRole st) ∧
    (∀ y ∈ scopeActivities userId userRole st,
        y ∉ (getDashboardStats userId userRole st).recent_activities →
        ∀ a ∈ (getDashboardStats userId userRole st).recent_activities,
          y.created_at ≤ a.created_at) ∧
    (∀ a ∈ (getDashboardStats userId userRole st).recent_activities,
        ∃ sub ∈ st.submissions, ∃ u ∈ st.users, ∃ asg ∈ st.assignments,
          u.id = sub.student_id ∧ asg.id = sub.assignment_id ∧
          a.id = sub.id ∧ a.type = "assignment_submission" ∧
          a.description = "Assignment submission for: " ++ asg.title ∧
          a.created_at = sub.submitted_at ∧
          a.user_name = u.first_name ++ " " ++ u.last_name) := by
  rw [recent_eq userId userRole st h]
  have hsorted : List.Pairwise activityGe (sortByNewest (scopeActivities userId userRole st)) :=
    List.sorted_insertionSort activityGe (scopeActivities userId userRole st)
  have hmemS : ∀ x : RecentActivity,
      x ∈ sortByNewest (scopeActivities userId userRole st)
        ↔ x ∈ scopeActivities userId userRole st := by
    intro x
    exact List.mem_insertionSort activityGe
  refine ⟨List.length_take_le 10 _, ?_, ?_, ?_, ?_, ?_⟩
  · rw [List.length_take]
    unfold sortByNewest
    rw [(List.perm_insertionSort activityGe (scopeActivities userId userRole st)).length_eq]
  · exact List.Pairwise.sublist (List.take_sublist 10 _) hsorted
  · intro a ha
    exact (hmemS a).mp (List.Sublist.mem ha (List.take_sublist 10 _))
  · intro y hy hynot a ha
    have hyS : y ∈ sortByNewest (scopeActivities userId userRole st) := (hmemS y).mpr hy
    have hsplit := (List.take_append_drop 10
      (sortByNewest (scopeActivities userId userRole st))).symm
    rw [hsplit] at hyS hsorted
    rcases List.mem_append.mp hyS with hyT | hyD
    · exact absurd hyT hynot
    · obtain ⟨-, -, hcross⟩ := List.pairwise_append.mp hsorted
      exact hcross a ha y hyD
  · intro a ha
    have hscope : a ∈ scopeActivities userId userRole st :=
      (hmemS a).mp (List.Sublist.mem ha (List.take_sublist 10 _))
    obtain ⟨sub, hsub, u, hu, asg, hasg, hid, haid, haeq⟩ :=
      mem_scopeActivities userId userRole st a hscope
    subst haeq
    exact ⟨sub, hsub, u, hu, asg, hasg, hid, haid, rfl, rfl, rfl, rfl, rfl⟩

/-- A store with one student, one course, one lesson, one active
subscription, one assignment and one submission. -/
def storeGlobal : Store :=
  { users := [⟨5, "Stu", "Dent", "student"⟩]
    courses := [⟨10, 1⟩]
    lessons := [⟨20, 10⟩]
    enrollments := [⟨10, 5⟩]
    subscriptions := [⟨5, 10, "active"⟩]
    assignments := [⟨30, 20, "HW1"⟩]
    submissions := [⟨40, 30, 5, 100⟩] }

theorem recent_activities_spec_witness :
    (getDashboardStats 1 "administrator" storeGlobal).recent_activities.length ≤ 10 ∧
    (getDashboardStats 1 "administrator" storeGlobal).recent_activities.length
      = min 10 (scopeActivities 1 "administrator" storeGlobal).length ∧
    List.Pairwise activityGe (getDashboardStats 1 "administrator" storeGlobal).recent_activities ∧
    (∀ a ∈ (getDashboardStats 1 "administrator" storeGlobal).recent_activities,
        a ∈ scopeActivities 1 "administrator" storeGlobal) ∧
    (∀ y ∈ scopeActivities 1 "administrator" storeGlobal,
        y ∉ (getDashboardStats 1 "administrator" storeGlobal).recent_activities →
        ∀ a ∈ (getDashboardStats 1 "administrator" storeGlobal).recent_activities,
          y.created_at ≤ a.created_at) ∧
    (∀ a ∈ (getDashboardStats 1 "administrator" storeGlobal).recent_activities,
        ∃ sub ∈ storeGlobal.submissions, ∃ u ∈ storeGlobal.users,
          ∃ asg ∈ storeGlobal.assignments,
          u.id = sub.student_id ∧ asg.id = sub.assignment_id ∧
          a.id = sub.id ∧ a.type = "assignment_submission" ∧
          a.description = "Assignment submission for: " ++ asg.title ∧
          a.created_at = sub.submitted_at ∧
          a.user_name = u.first_name ++ " " ++ u.last_name) :=
  recent_activities_spec 1 "administrator" storeGlobal (Or.inl rfl)

theorem non_student_enrollment_not_counted_witness :
    (getDashboardStats 1 "moderator"
        { storeAdminEnrollee with
            enrollments := storeAdminEnrollee.enrollments ++ [⟨10, 7⟩] }).total_students
      = (getDashboardStats 1 "moderator" storeAdminEnrollee).total_students :=
  non_student_enrollment_not_counted 1 storeAdminEnrollee ⟨10, 7⟩ (by decide)

/-! ### Moderator isolation

All moderator queries factor through the owner-scoped projection of the
store: the owned courses, the lessons/enrollments/subscriptions attached to
them, the assignments of owned lessons, the submissions of owned
assignments — plus the (untouched) users table.  Two stores agreeing on
that projection give a moderator identical dashboards, which is the
two-run isolation property: rows belonging only to another owner's courses
never influence the result. -/

/-- Lessons whose course is in the given course-id set. -/
def ownedLessons (st : Store) (courseIds : List Nat) : List Lesson :=
  st.lessons.filter fun l => decide (l.course_id ∈ courseIds)

/-- Ids of `ownedLessons`. -/
def ownedLessonIds (st : Store) (courseIds : List Nat) : List Nat :=
  (ownedLessons st courseIds).map fun l => l.id

/-- Assignments attached to a lesson of an owned course. -/
def ownedAssignments (st : Store) (courseIds : List Nat) : List Assignment :=
  st.assignments.filter fun a => decide (a.lesson_id ∈ ownedLessonIds st courseIds)

/-- Ids of `ownedAssignments`. -/
def ownedAssignmentIds (st : Store) (courseIds : List Nat) : List Nat :=
  (ownedAssignments st courseIds).map fun a => a.id

/-- Submissions for an assignment of an owned course. -/
def scopedSubmissions (st : Store) (courseIds : List Nat) : List AssignmentSubmission :=
  st.submissions.filter fun s => decide (s.assignment_id ∈ ownedAssignmentIds st courseIds)

/-- Enrollments into an owned course. -/
def scopedEnrollments (st : Store) (courseIds : List Nat) : List CourseEnrollment :=
  st.enrollments.filter fun e => decide (e.course_id ∈ courseIds)

/-- Subscriptions to an owned course. -/
def scopedSubscriptions (st : Store) (courseIds : List Nat) : List Subscription :=
  st.subscriptions.filter fun s => decide (s.course_id ∈ courseIds)

lemma flatMap_eq_filter_flatMap {α β : Type} (p : α → Bool) (f : α → List β)
    (h : ∀ a, p a = false → f a = []) (l : List α) :
    l.flatMap f = (l.filter p).flatMap f := by
  induction l with
  | nil => rfl
  | cons x xs ih =>
    cases hp : p x
    · simp [List.flatMap_cons, List.filter_cons, hp, h x hp, ih]
    · simp [List.flatMap_cons, List.filter_cons, hp, ih]

lemma lessonsJoin_nf {γ : Type} (lessons : List Lesson) (K : List Nat) (aLid : Nat)
    (g : Lesson → γ) (p : γ → Bool) (hp : ∀ l, p (g l) = decide (l.course_id ∈ K)) :
    ((lessons.filter fun l => decide (l.id = aLid)).map g).filter p
      = ((lessons.filter fun l => decide (l.course_id ∈ K)).filter
          fun l => decide (l.id = aLid)).map g := by
  rw [List.filter_map,
    List.filter_comm (fun l => decide (l.id = aLid)) (fun l => decide (l.course_id ∈ K)) lessons]
  congr 1
  apply List.filter_congr
  intro l _
  exact hp l

lemma assignmentsJoin_nf {γ : Type} (assignments : List Assignment) (lessons : List Lesson)
    (K : List Nat) (subAid : Nat) (g : Assignment → Lesson → γ) :
    ((assignments.filter fun a => decide (a.id = subAid)).flatMap fun a =>
        ((lessons.filter fun l => decide (l.course_id ∈ K)).filter
          fun l => decide (l.id = a.lesson_id)).map (g a))
      = (((assignments.filter fun a =>
            decide (a.lesson_id ∈
              ((lessons.filter fun l => decide (l.course_id ∈ K)).map fun l => l.id))).filter
          fun a => decide (a.id = subAid)).flatMap fun a =>
          ((lessons.filter fun l => decide (l.course_id ∈ K)).filter
            fun l => decide (l.id = a.lesson_id)).map (g a)) := by
  rw [flatMap_eq_filter_flatMap
    (fun a => decide (a.lesson_id ∈
      ((lessons.filter fun l => decide (l.course_id ∈ K)).map fun l => l.id)))
    _ ?_ _]
  · rw [List.filter_comm]
  · intro a hp
    rw [List.map_eq_nil_iff, List.filter_eq_nil_iff]
    intro l hl
    simp only [decide_eq_true_iff]
    intro hlid
    exact absurd (List.mem_map.mpr ⟨l, hl, hlid⟩) (of_decide_eq_false hp)

lemma modActivityRows_nf (st : Store) (K : List Nat) :
    ((modActivityRows st).filter fun r => decide (r.2.2.2.course_id ∈ K))
      = (scopedSubmissions st K).flatMap fun sub =>
          (st.users.filter fun u => decide (u.id = sub.student_id)).flatMap fun u =>
            ((ownedAssignments st K).filter
              fun a => decide (a.id = sub.assignment_id)).flatMap fun a =>
              ((ownedLessons st K).filter fun l => decide (l.id = a.lesson_id)).map fun l =>
                (sub, u, a, l) := by
  unfold scopedSubmissions ownedAssignments ownedAssignmentIds ownedLessons ownedLessonIds
    modActivityRows
  rw [List.filter_flatMap]
  trans (st.submissions.flatMap fun sub =>
    (st.users.filter fun u => decide (u.id = sub.student_id)).flatMap fun u =>
      (((st.assignments.filter fun a =>
            decide (a.lesson_id ∈
              ((st.lessons.filter fun l => decide (l.course_id ∈ K)).map fun l => l.id))).filter
          fun a => decide (a.id = sub.assignment_id)).flatMap fun a =>
          ((st.lessons.filter fun l => decide (l.course_id ∈ K)).filter
            fun l => decide (l.id = a.lesson_id)).map fun l => (sub, u, a, l)))
  · apply List.flatMap_congr
    intro sub _
    rw [List.filter_flatMap]
    apply List.flatMap_congr
    intro u _
    rw [List.filter_flatMap]
    trans ((st.assignments.filter fun a => decide (a.id = sub.assignment_id)).flatMap fun a =>
      ((st.lessons.filter fun l => decide (l.course_id ∈ K)).filter
        fun l => decide (l.id = a.lesson_id)).map fun l => (sub, u, a, l))
    · apply List.flatMap_congr
      intro a _
      exact lessonsJoin_nf st.lessons K a.lesson_id (fun l => (sub, u, a, l))
        (fun r => decide (r.2.2.2.course_id ∈ K)) (fun l => rfl)
    · exact assignmentsJoin_nf st.assignments st.lessons K sub.assignment_id
        (fun a l => (sub, u, a, l))
  · apply flatMap_eq_filter_flatMap
    intro sub hp
    have hA : ((st.assignments.filter fun a =>
          decide (a.lesson_id ∈
            ((st.lessons.filter fun l => decide (l.course_id ∈ K)).map fun l => l.id))).filter
        fun a => decide (a.id = sub.assignment_id)) = [] := by
      rw [List.filter_eq_nil_iff]
      intro a ha
      simp only [decide_eq_true_iff]
      intro haid
      exact absurd (List.mem_map.mpr ⟨a, ha, haid⟩) (of_decide_eq_false hp)
    simp [hA]

lemma enrolledStudentIds_eq (st : Store) (K : List Nat) :
    enrolledStudentIds st K
      = ((scopedEnrollments st K).flatMap fun e =>
          (st.users.filter fun u =>
            decide (u.id = e.student_id ∧ u.role = "student")).map
            fun _ => e.student_id).dedup := by
  unfold enrolledStudentIds scopedEnrollments
  congr 1
  induction st.enrollments with
  | nil => rfl
  | cons e es ih =>
    rw [List.flatMap_cons, List.filter_append, List.map_append, ih, List.filter_cons]
    by_cases hc : e.course_id ∈ K
    · rw [if_pos (by simpa using hc), List.flatMap_cons]
      congr 1
      rw [List.filter_map, List.map_map]
      rw [List.filter_filter]
      have hpred : ∀ u : User,
          (((fun p : CourseEnrollment × User =>
              decide (p.1.course_id ∈ K ∧ p.2.role = "student")) ∘ fun u => (e, u)) u
            && decide (u.id = e.student_id))
          = decide (u.id = e.student_id ∧ u.role = "student") := by
        intro u
        simp [Function.comp, hc, Bool.decide_and, Bool.and_comm]
      rw [List.filter_congr fun u _ => hpred u]
      rfl
    · rw [if_neg (by simpa using hc)]
      have hnil : (((st.users.filter fun u => decide (u.id = e.student_id)).map
            fun u => (e, u)).filter fun p : CourseEnrollment × User =>
            decide (p.1.course_id ∈ K ∧ p.2.role = "student")) = [] := by
        rw [List.filter_eq_nil_iff]
        intro p hmem
        obtain ⟨u, -, hpu⟩ := List.mem_map.mp hmem
        subst hpu
        simp only [decide_eq_true_iff]
        rintro ⟨hcK, -⟩
        exact hc hcK
      rw [hnil, List.map_nil, List.nil_append]

/-- **C1.** Moderator isolation, as a two-run statement: if two stores have
identical users and agree on the owner-scoped projection (owned courses,
and the lessons, enrollments, subscriptions, assignments and submissions
reachable from them), then the moderator dashboard is identical.  Rows
changed or added outside that projection — data belonging only to another
owner's courses — never influence the moderator's counts or
`recent_activities`. -/
theorem moderator_isolation (userId : Nat) (s1 s2 : Store)
    (hu : s2.users = s1.users)
    (hc : s2.courses.filter (fun c => decide (c.owner_id = userId))
        = s1.courses.filter (fun c => decide (c.owner_id = userId)))
    (hl : ownedLessons s2 (ownedCourseIds s1 userId)
        = ownedLessons s1 (ownedCourseIds s1 userId))
    (he : scopedEnrollments s2 (ownedCourseIds s1 userId)
        = scopedEnrollments s1 (ownedCourseIds s1 userId))
    (hs : scopedSubscriptions s2 (ownedCourseIds s1 userId)
        = scopedSubscriptions s1 (ownedCourseIds s1 userId))
    (ha : ownedAssignments s2 (ownedCourseIds s1 userId)
        = ownedAssignments s1 (ownedCourseIds s1 userId))
    (hb : scopedSubmissions s2 (ownedCourseIds s1 userId)
        = scopedSubmissions s1 (ownedCourseIds s1 userId)) :
    getDashboardStats userId ("moderator") s2 = getDashboardStats userId ("moderator") s1 := by
  have hK : ownedCourseIds s2 userId = ownedCourseIds s1 userId := by
    unfold ownedCourseIds
    rw [hc]
  rw [getDashboardStats, getDashboardStats,
    if_neg (by decide : ¬(("moderator" : String) = "administrator")), if_pos rfl,
    if_neg (by decide : ¬(("moderator" : String) = "administrator")), if_pos rfl]
  simp only [getModeratorStats]
  rw [hK]
  by_cases hlen : (ownedCourseIds s1 userId).length = 0
  · rw [if_pos hlen, if_pos hlen]
  · rw [if_neg hlen, if_neg hlen]
    have hstud : enrolledStudentIds s2 (ownedCourseIds s1 userId)
        = enrolledStudentIds s1 (ownedCourseIds s1 userId) := by
      rw [enrolledStudentIds_eq, enrolledStudentIds_eq, he, hu]
    have hact : modActivityList s2 (ownedCourseIds s1 userId)
        = modActivityList s1 (ownedCourseIds s1 userId) := by
      unfold modActivityList
      rw [modActivityRows_nf, modActivityRows_nf, hb, hu, ha, hl]
    have hless : (s2.lessons.filter fun l =>
          decide (l.course_id ∈ ownedCourseIds s1 userId))
        = s1.lessons.filter fun l => decide (l.course_id ∈ ownedCourseIds s1 userId) := hl
    have hsubsc : (s2.subscriptions.filter fun s =>
          decide (s.status = "active" ∧ s.course_id ∈ ownedCourseIds s1 userId))
        = s1.subscriptions.filter fun s =>
          decide (s.status = "active" ∧ s.course_id ∈ ownedCourseIds s1 userId) := by
      simp only [Bool.decide_and]
      rw [← List.filter_filter, ← List.filter_filter]
      have hs2 : (s2.subscriptions.filter fun s =>
            decide (s.course_id ∈ ownedCourseIds s1 userId))
          = s1.subscriptions.filter fun s =>
            decide (s.course_id ∈ ownedCourseIds s1 userId) := hs
      rw [hs2]
    rw [hstud, hact, hc, hless, hsubsc]

/-- `storeGlobal` extended with a second owner's course, lesson,
enrollment, subscription, assignment and submission (users unchanged). -/
def storeGlobalPlus : Store :=
  { users := [⟨5, "Stu", "Dent", "student"⟩]
    courses := [⟨10, 1⟩, ⟨11, 2⟩]
    lessons := [⟨20, 10⟩, ⟨21, 11⟩]
    enrollments := [⟨10, 5⟩, ⟨11, 6⟩]
    subscriptions := [⟨5, 10, "active"⟩, ⟨6, 11, "active"⟩]
    assignments := [⟨30, 20, "HW1"⟩, ⟨31, 21, "HW2"⟩]
    submissions := [⟨40, 30, 5, 100⟩, ⟨41, 31, 6, 200⟩] }

theorem moderator_isolation_witness :
    getDashboardStats 1 "moderator" storeGlobalPlus
      = getDashboardStats 1 "moderator" storeGlobal :=
  moderator_isolation 1 storeGlobal storeGlobalPlus (by decide) (by decide) (by decide)
    (by decide) (by decide) (by decide) (by decide)

end OnlineSchool
